import Mathlib

/-!
Verification of the Calico voice-assistant skill platform: a shallow
embedding of the dispatch and conversational-session engine found in
`libraries/base_skill.py`, `services/calico_skill_service.py` and the
`skills/` plugins, with theorems settling the specification's claims.

Conventions of the embedding:
  * Python `None`-able strings become `Option String`; Python truthiness
    of such a value (`if not x`) is `optFalsy` (falsy when `None` or `""`).
  * Each BaseSkill method that mutates the instance and publishes to MQTT
    becomes a function from the session state to an `Effect`: the new
    state, the list of outbound publishes (in order), and the list of log
    entries (one per `logging` call, in order).
  * `random.choice` over a fixed list is modelled by an extra `Nat`
    parameter `k` selecting index `k % length`.
-/

namespace Calico

/-- MAX_RETRIES from base_skill.py: bound on consecutive misunderstandings. -/
def MAX_RETRIES : Nat := 3

/-- RETRY_MESSAGES from base_skill.py: the fixed pool of re-ask prompts. -/
def RETRY_MESSAGES : List String :=
  [ "I'm sorry, I didn't catch that. Could you say it again?",
    "I didn't quite get that. Please repeat yourself.",
    "Could you say that one more time?",
    "I'm having a little trouble understanding. What was that?" ]

/-- Model of `random.choice(RETRY_MESSAGES)`: the seed `k` picks an index. -/
def chooseRetry (k : Nat) : String :=
  RETRY_MESSAGES.getD (k % RETRY_MESSAGES.length) ""

/-- Python truthiness for an optional string: `None` and `""` are falsy. -/
def optFalsy : Option String → Bool
  | none => true
  | some s => s.isEmpty

/-- Levels of the `logging` calls appearing in the embedded code. -/
inductive LogLevel where
  | info
  | warning
  | error
deriving Repr, DecidableEq

/-- One `logging` call: its level and (abbreviated) message text. -/
structure LogEntry where
  level : LogLevel
  msg : String
deriving Repr, DecidableEq

/-- Outbound MQTT publishes of the three protocol message types, with the
payload fields the code serialises. -/
inductive Publish where
  | say (text : String) (siteId : String)
  | endSession (sessionId : String) (text : String)
  | continueSession (sessionId : String) (text : String)
      (intentFilter : List String) (sendIntentNotRecognized : Bool)
deriving Repr, DecidableEq

/-- Session-specific mutable fields of a BaseSkill instance
(`self.session_id`, `self.site_id`, `self.retries`). -/
structure SkillState where
  session_id : Option String
  site_id : Option String
  retries : Nat
deriving Repr, DecidableEq

/-- Immutable identity of a skill (`self.intent_name`, `self.answer_intent`). -/
structure SkillConf where
  intent_name : String
  answer_intent : String
deriving Repr, DecidableEq

/-- Result of running one BaseSkill method: the updated session state, the
publishes it performed, and the log entries it wrote, in order. -/
structure Effect where
  state : SkillState
  pubs : List Publish
  logs : List LogEntry
deriving Repr, DecidableEq

/-- Inbound JSON payload as read by the code: `sessionId` and `siteId` via
`get` (absent keys give `None`), `intentName` via
`payload.get("intent", \x7b\x7d).get("intentName", "")` (absent gives `""`),
`input` via `get` with a branch-specific default. -/
structure Payload where
  sessionId : Option String
  siteId : Option String
  intentName : String
  input : Option String
deriving Repr, DecidableEq

/-- BaseSkill.end_session: warn and do nothing when no session is active,
otherwise publish one end-session message and clear the session fields
(`_clear_session` sets `session_id`/`site_id` to `None` and `retries` to 0). -/
def end_session (st : SkillState) (text : String) : Effect :=
  if optFalsy st.session_id then
    ⟨st, [], [⟨.warning, "Attempted to end a session that was not active."⟩]⟩
  else
    ⟨⟨none, none, 0⟩,
     [Publish.endSession (st.session_id.getD "") text],
     [⟨.info, "Ending session"⟩,
      ⟨.info, "Publishing to MQTT topic"⟩, ⟨.info, "Payload"⟩,
      ⟨.info, "Session data cleared."⟩]⟩

/-- BaseSkill.speak: reject with a logged error when `site_id` is falsy,
otherwise publish one say message; when `end_the_session` is set and a
session is active, also run `end_session` with empty text. -/
def speak (st : SkillState) (text : String) (end_the_session : Bool) : Effect :=
  if optFalsy st.site_id then
    ⟨st, [], [⟨.error, "Cannot use speak() without a valid site_id."⟩]⟩
  else
    let sayPubs : List Publish := [Publish.say text (st.site_id.getD "")]
    let sayLogs : List LogEntry :=
      [⟨.info, "Speaking response"⟩,
       ⟨.info, "Publishing to MQTT topic"⟩, ⟨.info, "Payload"⟩]
    if end_the_session && !(optFalsy st.session_id) then
      let e := end_session st ""
      ⟨e.state, sayPubs ++ e.pubs, sayLogs ++ e.logs⟩
    else
      ⟨st, sayPubs, sayLogs⟩

/-- BaseSkill.continue_session: reject with a logged error when no session is
active, otherwise publish one continue-session message carrying the current
`sessionId`, the text, `intentFilter = [answer_intent]` and
`sendIntentNotRecognized = true`; session fields are untouched. -/
def continue_session (conf : SkillConf) (st : SkillState) (text_to_speak : String) : Effect :=
  if optFalsy st.session_id then
    ⟨st, [], [⟨.error, "Cannot continue a session that is not active."⟩]⟩
  else
    ⟨st,
     [Publish.continueSession (st.session_id.getD "") text_to_speak
        [conf.answer_intent] true],
     [⟨.info, "Continuing session"⟩,
      ⟨.info, "Publishing to MQTT topic"⟩, ⟨.info, "Payload"⟩]⟩

/-- BaseSkill._prepare_for_intent: copy `sessionId` and `siteId` from the
message into the session fields; `retries` is not touched here. -/
def prepare_for_intent (st : SkillState) (m : Payload) : SkillState :=
  { st with session_id := m.sessionId, site_id := m.siteId }

/-- BaseSkill.handle_intent_not_recognized: ignore messages whose `sessionId`
differs from the skill's; otherwise increment `retries`, and either give up
(speak a final apology, which ends the session) at `MAX_RETRIES`, or re-ask
with a prompt chosen from `RETRY_MESSAGES`. -/
def handle_intent_not_recognized (conf : SkillConf) (st : SkillState)
    (msgSessionId : Option String) (k : Nat) : Effect :=
  if msgSessionId ≠ st.session_id then
    ⟨st, [], []⟩
  else
    let st1 : SkillState := { st with retries := st.retries + 1 }
    let warnLog : LogEntry := ⟨.warning, "Intent not recognized. Retry attempt."⟩
    if MAX_RETRIES ≤ st1.retries then
      let e := speak st1 "I'm still not understanding. Let's try again later." true
      ⟨e.state, e.pubs,
       warnLog :: ⟨.error, "Maximum retry limit reached. Ending conversation."⟩ :: e.logs⟩
    else
      let e := continue_session conf st1 (chooseRetry k)
      ⟨e.state, e.pubs, warnLog :: e.logs⟩

/-- Conversation state of AskMeColorsSkill (`self.conversation_state`):
"initial" plays the role of the spec's Idle, "waiting_for_color" the role of
AwaitingAnswer. -/
inductive ColorsState where
  | initial
  | waiting_for_color
deriving Repr, DecidableEq

/-- Full mutable state of an AskMeColorsSkill instance: the inherited
BaseSkill session fields plus its own `conversation_state`. -/
structure ColorsSkill where
  base : SkillState
  conversation_state : ColorsState
deriving Repr, DecidableEq

/-- Identity of AskMeColorsSkill as passed to the BaseSkill constructor. -/
def colorsConf : SkillConf := ⟨"Ask_Me_Colors", "Answer_Colors"⟩

/-- State of a freshly constructed AskMeColorsSkill. -/
def colorsInit : ColorsSkill := ⟨⟨none, none, 0⟩, .initial⟩

/-- Result of one AskMeColorsSkill handler invocation. -/
structure ColorsEffect where
  skill : ColorsSkill
  pubs : List Publish
  logs : List LogEntry
deriving Repr, DecidableEq

/-- AskMeColorsSkill.handle_intent: after `_prepare_for_intent`, either start
the two-turn conversation (trigger intent while "initial": set state to
"waiting_for_color" and ask via `continue_session`), or finish it (answer
intent while "waiting_for_color": speak the reply, which ends the session,
and reset the state to "initial"); any other combination does nothing beyond
the preparation. -/
def colors_handle_intent (sk : ColorsSkill) (m : Payload) : ColorsEffect :=
  let st0 := prepare_for_intent sk.base m
  let prepLog : LogEntry := ⟨.info, "Handling intent for session"⟩
  if m.intentName = colorsConf.intent_name ∧ sk.conversation_state = .initial then
    let e := continue_session colorsConf st0 "What is your favorite color?"
    ⟨⟨e.state, .waiting_for_color⟩, e.pubs,
     prepLog :: ⟨.info, "Starting Ask Me Colors conversation."⟩ :: e.logs⟩
  else if m.intentName = colorsConf.answer_intent ∧ sk.conversation_state = .waiting_for_color then
    let user_color := m.input.getD "that color"
    let e := speak st0 ("Wow! " ++ user_color ++ " is a great color. Mine is orange.") true
    ⟨⟨e.state, .initial⟩, e.pubs,
     prepLog :: ⟨.info, "User responded with color"⟩ :: e.logs
       ++ [⟨.info, "Conversation finished. Resetting state."⟩]⟩
  else
    ⟨⟨st0, sk.conversation_state⟩, [], [prepLog]⟩

/-- AskMeColorsSkill inherits `handle_intent_not_recognized` from BaseSkill;
only the inherited session fields change, never `conversation_state`. -/
def colors_handle_not_recognized (sk : ColorsSkill) (msgSessionId : Option String)
    (k : Nat) : ColorsEffect :=
  let e := handle_intent_not_recognized colorsConf sk.base msgSessionId k
  ⟨⟨e.state, sk.conversation_state⟩, e.pubs, e.logs⟩

/-- One inbound bus message addressed to the colors skill, as the service
dispatches it: a recognized-intent payload or a not-recognized event.  The
seed `k` resolves the `random.choice` in the retry path. -/
inductive InMsg where
  | intentMsg (m : Payload)
  | notRec (sessionId : Option String) (k : Nat)
deriving Repr, DecidableEq

/-- Dispatch one inbound message to the colors skill's handlers. -/
def colorsStep (sk : ColorsSkill) (m : InMsg) : ColorsEffect :=
  match m with
  | .intentMsg m => colors_handle_intent sk m
  | .notRec sid k => colors_handle_not_recognized sk sid k

/-- Run the colors skill from its freshly constructed state over a sequence
of inbound messages, keeping the final state. -/
def colorsRun (msgs : List InMsg) : ColorsSkill :=
  msgs.foldl (fun sk m => (colorsStep sk m).skill) colorsInit

/-- Identity of a skill instance as created by a successful plugin load
(`skill_instance.intent_name`, `skill_instance.answer_intent`). -/
structure LoadedSkill where
  intent_name : String
  answer_intent : String
deriving Repr, DecidableEq

/-- Outcome of processing one plugin file inside `load_skills`' per-file
`try` block.  The dynamic import machinery itself is I/O, so a file is
modelled by what it yields: a constructed instance (`ok`), a module without
the expected class (`noClass`: warning, continue), or an exception anywhere
during import or construction (`loadError`: logged, continue).  Files whose
name starts with `_` are skipped before the `try` and therefore never reach
this point; they behave like `noClass` (no registry change). -/
inductive PluginResult where
  | ok (sk : LoadedSkill)
  | noClass
  | loadError
deriving Repr, DecidableEq

/-- Python dict assignment `d[k] = v`, modelled as prepending; `dictLookup`
takes the first match, so a later assignment shadows an earlier one. -/
def dictInsert (d : List (String × LoadedSkill)) (k : String) (v : LoadedSkill) :
    List (String × LoadedSkill) :=
  (k, v) :: d

/-- Python dict lookup `d[k]` / `k in d`: the most recent binding of `k`. -/
def dictLookup (d : List (String × LoadedSkill)) (k : String) : Option LoadedSkill :=
  (d.find? (fun p => decide (p.1 = k))).map (fun p => p.2)

/-- Registration of one successfully constructed instance, exactly as in
load_skills: `LOADED_SKILLS[intent_name] = inst` then
`LOADED_SKILLS[answer_intent] = inst`, both unconditional. -/
def registerSkill (d : List (String × LoadedSkill)) (sk : LoadedSkill) :
    List (String × LoadedSkill) :=
  dictInsert (dictInsert d sk.intent_name sk) sk.answer_intent sk

/-- Effect of one iteration of the `load_skills` loop on the registry and
the unique-instance collection: successes register and join the set,
failures leave both untouched. -/
def loadStep (acc : List (String × LoadedSkill) × List LoadedSkill)
    (f : PluginResult) : List (String × LoadedSkill) × List LoadedSkill :=
  match f with
  | .ok sk => (registerSkill acc.1 sk, acc.2 ++ [sk])
  | .noClass => acc
  | .loadError => acc

/-- load_skills: fold the per-file step over the plugin directory's files
(in scan order), starting from the empty registry and empty instance set. -/
def load_skills (files : List PluginResult) :
    List (String × LoadedSkill) × List LoadedSkill :=
  files.foldl loadStep ([], [])

/-- Skills successfully constructed from a file list, in order. -/
def oks : List PluginResult → List LoadedSkill
  | [] => []
  | .ok sk :: rest => sk :: oks rest
  | .noClass :: rest => oks rest
  | .loadError :: rest => oks rest

/-- Topic of not-recognized events, compared against in on_message. -/
def notRecTopic : String := "hermes/nlu/intentNotRecognized"

/-- Greeting pool of HelloSkill, a representative one-shot skill. -/
def hello_replies : List String :=
  ["Hi!", "Hello!", "Hey!", "Hello there!", "Hi there!", "Hey there!",
   "Hello, human!"]

/-- Behaviour of a loaded skill instance's `handle_intent`, as the router
sees it: a one-shot skill in the style of HelloSkill (prepare, then speak a
reply chosen from a pool, ending the session), or a handler whose body
raises an exception, exercising the router's catch-all. -/
inductive HandlerBehavior where
  | oneShot (replies : List String)
  | raising (err : String)
deriving Repr, DecidableEq

/-- One skill instance held by the service: an identity `sid` (object
identity: the registry and the unique-instance set reference the same
instance), its configured intents, its handler behaviour, and its mutable
session fields. -/
structure SvcSkill where
  sid : Nat
  conf : SkillConf
  behavior : HandlerBehavior
  state : SkillState
deriving Repr, DecidableEq

/-- Run a skill instance's `handle_intent` on a payload.  An `ok` result
carries the new session state, publishes and logs; an `error` is an
exception escaping the handler into the router. -/
def svcHandleIntent (sk : SvcSkill) (m : Payload) (k : Nat) :
    Except String (SkillState × List Publish × List LogEntry) :=
  match sk.behavior with
  | .raising err => .error err
  | .oneShot replies =>
    let st1 := prepare_for_intent sk.state m
    let e := speak st1 (replies.getD (k % replies.length) "") true
    .ok (e.state, e.pubs, ⟨.info, "Handling intent for session"⟩ :: e.logs)

/-- Service-level state: `LOADED_SKILLS` (intent name, instance id) pairs,
`UNIQUE_SKILL_INSTANCES` as a list of instance ids, and the store of the
instances themselves. -/
structure Service where
  registry : List (String × Nat)
  uniques : List Nat
  skills : List SvcSkill
deriving Repr, DecidableEq

/-- Python `intent_name in LOADED_SKILLS` / `LOADED_SKILLS[intent_name]`,
first match standing for the dict's single binding. -/
def regLookup (d : List (String × Nat)) (key : String) : Option Nat :=
  (d.find? (fun p => decide (p.1 = key))).map (fun p => p.2)

/-- Dereference an instance id in the service's store. -/
def findSkill (svc : Service) (i : Nat) : Option SvcSkill :=
  svc.skills.find? (fun sk => decide (sk.sid = i))

/-- Write back a mutated instance (same `sid`) into the store. -/
def updateSkill (skills : List SvcSkill) (sk : SvcSkill) : List SvcSkill :=
  skills.map (fun x => if x.sid = sk.sid then sk else x)

/-- Scan `UNIQUE_SKILL_INSTANCES` (in iteration order) for the first skill
whose `session_id` equals the event's session id, as the not-recognized
branch of on_message does. -/
def scanActive (svc : Service) (ids : List Nat) (sid : String) : Option SvcSkill :=
  match ids with
  | [] => none
  | i :: rest =>
    match findSkill svc i with
    | some sk => if sk.state.session_id = some sid then some sk else scanActive svc rest sid
    | none => scanActive svc rest sid

/-- Result of one on_message invocation: the service state afterwards, the
publishes performed and the log entries written. -/
structure RouterResult where
  svc : Service
  pubs : List Publish
  logs : List LogEntry
deriving Repr, DecidableEq

/-- on_message from calico_skill_service.py.  `payload = none` models a
`json.loads` failure (caught: one error log, nothing else).  Not-recognized
events with a falsy session id are silently dropped; otherwise the unique
instances are scanned for the owner of the session.  Intent messages with an
empty intent name are dropped with a warning; otherwise the service logs the
receipt, looks the name up in the registry, and either dispatches (an
exception escaping the handler is caught by the outer `except` and logged)
or logs that no skill is loaded for the intent.  The registry and the
unique-instance set are never written here. -/
def on_message (svc : Service) (topic : String) (payload : Option Payload)
    (k : Nat) : RouterResult :=
  match payload with
  | none =>
    ⟨svc, [], [⟨.error, "Could not decode JSON from MQTT message"⟩]⟩
  | some p =>
    if topic = notRecTopic then
      if optFalsy p.sessionId then
        ⟨svc, [], []⟩
      else
        let sid := p.sessionId.getD ""
        let searchLog : LogEntry :=
          ⟨.warning, "Intent not recognized for session. Searching for active skill."⟩
        match scanActive svc svc.uniques sid with
        | some sk =>
          let e := handle_intent_not_recognized sk.conf sk.state p.sessionId k
          ⟨{ svc with skills := updateSkill svc.skills { sk with state := e.state } },
           e.pubs,
           searchLog :: ⟨.info, "Found active skill for session. Dispatching."⟩ :: e.logs⟩
        | none =>
          ⟨svc, [],
           [searchLog, ⟨.info, "No active skill conversation found for this session."⟩]⟩
    else
      if p.intentName = "" then
        ⟨svc, [], [⟨.warning, "Received message on intent topic without an intent name."⟩]⟩
      else
        let recvLog : LogEntry := ⟨.info, "Received intent"⟩
        match regLookup svc.registry p.intentName with
        | some i =>
          match findSkill svc i with
          | some sk =>
            let dispatchLog : LogEntry := ⟨.info, "Dispatching intent to skill."⟩
            match svcHandleIntent sk p k with
            | .ok (st, pubs, logs) =>
              ⟨{ svc with skills := updateSkill svc.skills { sk with state := st } },
               pubs, recvLog :: dispatchLog :: logs⟩
            | .error _ =>
              ⟨svc, [],
               [recvLog, dispatchLog,
                ⟨.error, "An unexpected error occurred in on_message"⟩]⟩
          | none => ⟨svc, [], [recvLog]⟩
        | none =>
          ⟨svc, [],
           [recvLog, ⟨.warning, "Received intent but no skill is loaded to handle it."⟩]⟩

/-! Helper lemmas shared by several claim proofs. -/

lemma optFalsy_some_of_ne (s : String) (h : s ≠ "") : optFalsy (some s) = false := by
  have hne : ¬ s.isEmpty = true := fun hc => h ((String.isEmpty_iff s).mp hc)
  simp [optFalsy, hne]

lemma chooseRetry_mem (k : Nat) : chooseRetry k ∈ RETRY_MESSAGES := by
  have h4 : k % 4 = 0 ∨ k % 4 = 1 ∨ k % 4 = 2 ∨ k % 4 = 3 := by omega
  have hlen : RETRY_MESSAGES.length = 4 := by decide
  rcases h4 with h | h | h | h <;>
    simp [chooseRetry, hlen, h, RETRY_MESSAGES]

/-- C10: a not-recognized message whose `sessionId` differs from the skill's
current `session_id` (in particular when the skill has no active session) is
ignored by `handle_intent_not_recognized`: the session fields are unchanged
and nothing is published or logged. -/
theorem C10_foreign_session_ignored (conf : SkillConf) (st : SkillState)
    (msgSessionId : Option String) (k : Nat) (h : msgSessionId ≠ st.session_id) :
    handle_intent_not_recognized conf st msgSessionId k = ⟨st, [], []⟩ := by
  simp [handle_intent_not_recognized, h]

/-- Witness for C10 at a concrete input: an active "S1" session receiving a
not-recognized event for session "S2". -/
theorem C10_foreign_session_ignored_witness :
    handle_intent_not_recognized ⟨"Ask_Me_Colors", "Answer_Colors"⟩
      ⟨some "S1", some "D1", 0⟩ (some "S2") 0
      = ⟨⟨some "S1", some "D1", 0⟩, [], []⟩ :=
  C10_foreign_session_ignored ⟨"Ask_Me_Colors", "Answer_Colors"⟩
    ⟨some "S1", some "D1", 0⟩ (some "S2") 0 (by decide)

/-- C7: `end_session` with no active session is a no-op apart from one
warning log (no publish, session fields unchanged), and `speak` with no
`site_id` performs no publish and changes no field, logging one error. -/
theorem C7_inactive_noop (st1 st2 : SkillState) (text1 text2 : String)
    (flag : Bool) (h1 : st1.session_id = none) (h2 : st2.site_id = none) :
    end_session st1 text1
      = ⟨st1, [], [⟨.warning, "Attempted to end a session that was not active."⟩]⟩
    ∧ speak st2 text2 flag
      = ⟨st2, [], [⟨.error, "Cannot use speak() without a valid site_id."⟩]⟩ := by
  constructor
  · simp [end_session, h1, optFalsy]
  · simp [speak, h2, optFalsy]

/-- Witness for C7 at concrete states. -/
theorem C7_inactive_noop_witness :
    end_session ⟨none, some "D1", 2⟩ "bye"
      = ⟨⟨none, some "D1", 2⟩, [],
         [⟨.warning, "Attempted to end a session that was not active."⟩]⟩
    ∧ speak ⟨some "S1", none, 1⟩ "hi" true
      = ⟨⟨some "S1", none, 1⟩, [],
         [⟨.error, "Cannot use speak() without a valid site_id."⟩]⟩ :=
  C7_inactive_noop ⟨none, some "D1", 2⟩ ⟨some "S1", none, 1⟩ "bye" "hi" true
    rfl rfl

/-- C5: for a skill with a non-empty answer intent and an active session,
`continue_session` publishes exactly one continue-session message carrying
the current `sessionId`, the given text, `intentFilter = [answer_intent]`
and `sendIntentNotRecognized = true`, and leaves every session field
(in particular `session_id`) unchanged — the skill stays parked on its
follow-up question, which is the AwaitingAnswer posture. -/
theorem C5_continue_session (conf : SkillConf) (st : SkillState) (text : String)
    (hactive : optFalsy st.session_id = false) (_hans : conf.answer_intent ≠ "") :
    (continue_session conf st text).pubs
      = [Publish.continueSession (st.session_id.getD "") text [conf.answer_intent] true]
    ∧ (continue_session conf st text).state = st := by
  constructor <;> simp [continue_session, hactive]

/-- Witness for C5 at a concrete skill and state. -/
theorem C5_continue_session_witness :
    (continue_session ⟨"Ask_Me_Colors", "Answer_Colors"⟩ ⟨some "S1", some "D1", 0⟩
        "What is your favorite color?").pubs
      = [Publish.continueSession "S1" "What is your favorite color?"
          ["Answer_Colors"] true]
    ∧ (continue_session ⟨"Ask_Me_Colors", "Answer_Colors"⟩ ⟨some "S1", some "D1", 0⟩
        "What is your favorite color?").state = ⟨some "S1", some "D1", 0⟩ :=
  C5_continue_session ⟨"Ask_Me_Colors", "Answer_Colors"⟩ ⟨some "S1", some "D1", 0⟩
    "What is your favorite color?" (by decide) (by decide)

/-- C1: from an AwaitingAnswer session (session `s` and site `t` recorded,
`retries = 0`), each of the first two not-recognized events for `s`
publishes exactly one continue-session re-ask whose prompt is drawn from the
fixed retry pool and leaves `retries` at the incremented value (1, then 2)
without resetting it; the third event publishes exactly one apology say
message followed by exactly one end-session message, and clears
`session_id`, `site_id` and `retries` — the Idle posture. -/
theorem C1_retry_exhaustion (conf : SkillConf) (s t : String) (k1 k2 k3 : Nat)
    (hs : s ≠ "") (ht : t ≠ "") :
    (handle_intent_not_recognized conf ⟨some s, some t, 0⟩ (some s) k1).state
        = ⟨some s, some t, 1⟩
    ∧ (handle_intent_not_recognized conf ⟨some s, some t, 0⟩ (some s) k1).pubs
        = [Publish.continueSession s (chooseRetry k1) [conf.answer_intent] true]
    ∧ chooseRetry k1 ∈ RETRY_MESSAGES
    ∧ (handle_intent_not_recognized conf ⟨some s, some t, 1⟩ (some s) k2).state
        = ⟨some s, some t, 2⟩
    ∧ (handle_intent_not_recognized conf ⟨some s, some t, 1⟩ (some s) k2).pubs
        = [Publish.continueSession s (chooseRetry k2) [conf.answer_intent] true]
    ∧ chooseRetry k2 ∈ RETRY_MESSAGES
    ∧ (handle_intent_not_recognized conf ⟨some s, some t, 2⟩ (some s) k3).pubs
        = [Publish.say "I'm still not understanding. Let's try again later." t,
           Publish.endSession s ""]
    ∧ (handle_intent_not_recognized conf ⟨some s, some t, 2⟩ (some s) k3).state
        = ⟨none, none, 0⟩ := by
  have hfs := optFalsy_some_of_ne s hs
  have hft := optFalsy_some_of_ne t ht
  refine ⟨?_, ?_, chooseRetry_mem k1, ?_, ?_, chooseRetry_mem k2, ?_, ?_⟩ <;>
    simp [handle_intent_not_recognized, continue_session, speak, end_session,
      MAX_RETRIES, hfs, hft]

/-- Witness for C1 at session "S1", site "D1" and seeds 0, 1, 2. -/
theorem C1_retry_exhaustion_witness :
    (handle_intent_not_recognized ⟨"Ask_Me_Colors", "Answer_Colors"⟩
        ⟨some "S1", some "D1", 0⟩ (some "S1") 0).state = ⟨some "S1", some "D1", 1⟩
    ∧ (handle_intent_not_recognized ⟨"Ask_Me_Colors", "Answer_Colors"⟩
        ⟨some "S1", some "D1", 0⟩ (some "S1") 0).pubs
        = [Publish.continueSession "S1" (chooseRetry 0) ["Answer_Colors"] true]
    ∧ chooseRetry 0 ∈ RETRY_MESSAGES
    ∧ (handle_intent_not_recognized ⟨"Ask_Me_Colors", "Answer_Colors"⟩
        ⟨some "S1", some "D1", 1⟩ (some "S1") 1).state = ⟨some "S1", some "D1", 2⟩
    ∧ (handle_intent_not_recognized ⟨"Ask_Me_Colors", "Answer_Colors"⟩
        ⟨some "S1", some "D1", 1⟩ (some "S1") 1).pubs
        = [Publish.continueSession "S1" (chooseRetry 1) ["Answer_Colors"] true]
    ∧ chooseRetry 1 ∈ RETRY_MESSAGES
    ∧ (handle_intent_not_recognized ⟨"Ask_Me_Colors", "Answer_Colors"⟩
        ⟨some "S1", some "D1", 2⟩ (some "S1") 2).pubs
        = [Publish.say "I'm still not understanding. Let's try again later." "D1",
           Publish.endSession "S1" ""]
    ∧ (handle_intent_not_recognized ⟨"Ask_Me_Colors", "Answer_Colors"⟩
        ⟨some "S1", some "D1", 2⟩ (some "S1") 2).state = ⟨none, none, 0⟩ :=
  C1_retry_exhaustion ⟨"Ask_Me_Colors", "Answer_Colors"⟩ "S1" "D1" 0 1 2
    (by decide) (by decide)

/-- Message trace exercising retry exhaustion on the colors skill: a trigger
intent opening session "S1" on site "D1", then three not-recognized events
for "S1". -/
def c2trace : List InMsg :=
  [ .intentMsg ⟨some "S1", some "D1", "Ask_Me_Colors", none⟩,
    .notRec (some "S1") 0, .notRec (some "S1") 1, .notRec (some "S1") 2 ]

/-- C2 (violation exhibited): after the protocol-conformant sequence in
`c2trace`, the colors skill's `session_id` is null yet its
`conversation_state` is still "waiting_for_color" (AwaitingAnswer) rather
than "initial" (Idle): retry exhaustion clears the inherited session fields
via `_clear_session` but never resets the skill-defined state, so the
claimed iff-invariant fails after the fourth handler invocation. -/
theorem C2_invariant_broken_after_exhaustion :
    (colorsRun c2trace).base.session_id = none
    ∧ (colorsRun c2trace).conversation_state ≠ ColorsState.initial := by
  decide

/-- Message trace abandoning a mid-retry conversation: a trigger opening
session "S1", one not-recognized event for "S1" (bringing `retries` to 1),
then a second trigger opening session "S2". -/
def c3trace : List InMsg :=
  [ .intentMsg ⟨some "S1", some "D1", "Ask_Me_Colors", none⟩,
    .notRec (some "S1") 0,
    .intentMsg ⟨some "S2", some "D1", "Ask_Me_Colors", none⟩ ]

/-- C3 counterexample: immediately after the second trigger of `c3trace` is
handled — a session open, with fields freshly set to "S2" — `retries` is
still 1, not 0: `_prepare_for_intent` copies the session fields but does not
reset the retry counter, so opening a session over an abandoned mid-retry
conversation starts with a non-zero count. -/
theorem C3_open_nonzero_retries_cex :
    (colorsRun c3trace).base.session_id = some "S2"
    ∧ (colorsRun c3trace).base.retries ≠ 0 := by
  decide

/-- C3 amended: `retries` is 0 immediately after a session is closed, and is
monotonically non-decreasing within one AwaitingAnswer episode (a
not-recognized event either keeps the session and does not decrease the
counter, or closes the session leaving the counter 0); opening a session,
however, leaves `retries` unchanged rather than resetting it, so it is 0
after opening exactly when it was 0 beforehand. -/
theorem C3_retry_discipline (conf : SkillConf) (st : SkillState) (text : String)
    (m : Payload) (msid : Option String) (k : Nat)
    (hactive : optFalsy st.session_id = false) :
    (end_session st text).state.retries = 0
    ∧ (prepare_for_intent st m).retries = st.retries
    ∧ (st.retries ≤ (handle_intent_not_recognized conf st msid k).state.retries
       ∨ (handle_intent_not_recognized conf st msid k).state.retries = 0) := by
  refine ⟨by simp [end_session, hactive], rfl, ?_⟩
  by_cases hm : msid = st.session_id
  · by_cases h1 : MAX_RETRIES ≤ st.retries + 1
    · by_cases h2 : optFalsy st.site_id
      · simp [handle_intent_not_recognized, speak, hm, h1, h2]
      · by_cases h3 : optFalsy st.session_id <;>
          simp [handle_intent_not_recognized, speak, end_session, hm, h1, h2, h3]
    · simp [handle_intent_not_recognized, continue_session, hm, h1]
      by_cases h3 : optFalsy st.session_id <;> simp [h3]
  · simp [handle_intent_not_recognized, hm]

/-- Witness for C3's amended statement at a concrete active session. -/
theorem C3_retry_discipline_witness :
    (end_session ⟨some "S1", some "D1", 2⟩ "").state.retries = 0
    ∧ (prepare_for_intent ⟨some "S1", some "D1", 2⟩
        ⟨some "S2", some "D1", "Ask_Me_Colors", none⟩).retries
        = (⟨some "S1", some "D1", 2⟩ : SkillState).retries
    ∧ ((⟨some "S1", some "D1", 2⟩ : SkillState).retries
        ≤ (handle_intent_not_recognized ⟨"Ask_Me_Colors", "Answer_Colors"⟩
            ⟨some "S1", some "D1", 2⟩ (some "S1") 0).state.retries
       ∨ (handle_intent_not_recognized ⟨"Ask_Me_Colors", "Answer_Colors"⟩
            ⟨some "S1", some "D1", 2⟩ (some "S1") 0).state.retries = 0) :=
  C3_retry_discipline ⟨"Ask_Me_Colors", "Answer_Colors"⟩ ⟨some "S1", some "D1", 2⟩
    "" ⟨some "S2", some "D1", "Ask_Me_Colors", none⟩ (some "S1") 0 (by decide)

/-! Lookup behaviour of a single registration, shared by the C4 and C9
developments. -/

lemma registerSkill_lookup_intent (d : List (String × LoadedSkill)) (sk : LoadedSkill) :
    dictLookup (registerSkill d sk) sk.intent_name = some sk := by
  by_cases h : sk.answer_intent = sk.intent_name <;>
    simp [dictLookup, registerSkill, dictInsert, List.find?, h]

lemma registerSkill_lookup_answer (d : List (String × LoadedSkill)) (sk : LoadedSkill) :
    dictLookup (registerSkill d sk) sk.answer_intent = some sk := by
  simp [dictLookup, registerSkill, dictInsert, List.find?]

/-- C4 counterexample: loading a skill with an empty answer intent (the
HelloSkill configuration) leaves the registry with a binding for the empty
string — `load_skills` registers the answer intent unconditionally, so the
registry can contain an empty-string key, contrary to the claim. -/
theorem C4_empty_key_cex :
    dictLookup (load_skills [PluginResult.ok ⟨"Hello", ""⟩]).1 ""
      = some ⟨"Hello", ""⟩
    ∧ dictLookup (load_skills [PluginResult.ok ⟨"Hello", ""⟩]).1 "" ≠ none := by
  decide

/-- C4 amended: for every successfully loaded skill, `load_skills` registers
the instance under its trigger intent and, unconditionally, under its answer
intent — even when the answer intent is the empty string — with both keys
mapping to the same instance; a skill with an empty answer intent therefore
puts an empty-string key into the registry (the router never consults that
key, since intent messages with an empty name are dropped first). -/
theorem C4_register_unconditional (d : List (String × LoadedSkill)) (sk : LoadedSkill) :
    dictLookup (registerSkill d sk) sk.intent_name = some sk
    ∧ dictLookup (registerSkill d sk) sk.answer_intent = some sk
    ∧ (load_skills [PluginResult.ok sk]).1 = registerSkill [] sk :=
  ⟨registerSkill_lookup_intent d sk, registerSkill_lookup_answer d sk, rfl⟩

/-- Service with a single loaded one-shot skill registered under "Hello",
used as a concrete router configuration. -/
def svcHello : Service :=
  ⟨[("Hello", 0)], [0],
   [⟨0, ⟨"Hello", ""⟩, .oneShot hello_replies, ⟨none, none, 0⟩⟩]⟩

/-- C6 counterexample: dispatching the unregistered intent "Unknown_Intent"
against `svcHello` produces zero publishes, invokes no handler and leaves
every skill unchanged — but writes two log entries (the unconditional
"Received intent" info line and the "no skill loaded" warning), not exactly
one as claimed. -/
theorem C6_two_log_entries_cex :
    (on_message svcHello "hermes/intent/Unknown_Intent"
        (some ⟨some "S1", some "D1", "Unknown_Intent", none⟩) 0).pubs = []
    ∧ (on_message svcHello "hermes/intent/Unknown_Intent"
        (some ⟨some "S1", some "D1", "Unknown_Intent", none⟩) 0).svc = svcHello
    ∧ (on_message svcHello "hermes/intent/Unknown_Intent"
        (some ⟨some "S1", some "D1", "Unknown_Intent", none⟩) 0).logs.length = 2
    ∧ (on_message svcHello "hermes/intent/Unknown_Intent"
        (some ⟨some "S1", some "D1", "Unknown_Intent", none⟩) 0).logs.length ≠ 1 := by
  decide

/-- C6 amended: for every inbound intent message whose (non-empty)
intentName is absent from the registry, the router produces zero outbound
publishes, invokes no skill handler, leaves the whole service state — in
particular every skill's session fields — unchanged, and emits exactly two
log entries: the unconditional per-message receipt info line and one warning
recording that no skill is loaded for the intent. -/
theorem C6_unregistered_drop (svc : Service) (topic : String) (p : Payload)
    (k : Nat) (htop : topic ≠ notRecTopic) (hname : p.intentName ≠ "")
    (hreg : regLookup svc.registry p.intentName = none) :
    on_message svc topic (some p) k
      = ⟨svc, [],
         [⟨.info, "Received intent"⟩,
          ⟨.warning, "Received intent but no skill is loaded to handle it."⟩]⟩ := by
  simp [on_message, htop, hname, hreg]

/-- Witness for C6's amended statement at the concrete configuration. -/
theorem C6_unregistered_drop_witness :
    on_message svcHello "hermes/intent/Unknown_Intent"
        (some ⟨some "S1", some "D1", "Unknown_Intent", none⟩) 0
      = ⟨svcHello, [],
         [⟨.info, "Received intent"⟩,
          ⟨.warning, "Received intent but no skill is loaded to handle it."⟩]⟩ :=
  C6_unregistered_drop svcHello "hermes/intent/Unknown_Intent"
    ⟨some "S1", some "D1", "Unknown_Intent", none⟩ 0
    (by decide) (by decide) (by decide)

/-- Service holding one skill whose intent handler raises, registered under
"Broken_Skill", used to exercise the router's catch-all. -/
def svcRaising : Service :=
  ⟨[("Broken_Skill", 0)], [0],
   [⟨0, ⟨"Broken_Skill", ""⟩, .raising "ValueError", ⟨none, none, 0⟩⟩]⟩

/-- C8: the router's dispatch never propagates a failure. A payload that is
not valid JSON yields only one error log — no publish, no state change —
and an exception escaping an invoked skill handler is caught at the router
boundary and logged, leaving the registry, the unique-instance set and the
skill store exactly as they were, with nothing published. -/
theorem C8_router_catches (svc : Service) (topic : String) (p : Payload)
    (k i : Nat) (sk : SvcSkill) (err : String)
    (htop : topic ≠ notRecTopic) (hname : p.intentName ≠ "")
    (hreg : regLookup svc.registry p.intentName = some i)
    (hfind : findSkill svc i = some sk) (hbeh : sk.behavior = .raising err) :
    on_message svc topic none k
      = ⟨svc, [], [⟨.error, "Could not decode JSON from MQTT message"⟩]⟩
    ∧ (on_message svc topic (some p) k).svc.registry = svc.registry
    ∧ (on_message svc topic (some p) k).svc.uniques = svc.uniques
    ∧ (on_message svc topic (some p) k).svc.skills = svc.skills
    ∧ (on_message svc topic (some p) k).pubs = []
    ∧ (on_message svc topic (some p) k).logs
        = [⟨.info, "Received intent"⟩, ⟨.info, "Dispatching intent to skill."⟩,
           ⟨.error, "An unexpected error occurred in on_message"⟩] := by
  refine ⟨rfl, ?_, ?_, ?_, ?_, ?_⟩ <;>
    simp [on_message, svcHandleIntent, htop, hname, hreg, hfind, hbeh]

/-- Witness for C8 at the concrete raising-handler configuration. -/
theorem C8_router_catches_witness :
    on_message svcRaising "hermes/intent/Broken_Skill" none 0
      = ⟨svcRaising, [], [⟨.error, "Could not decode JSON from MQTT message"⟩]⟩
    ∧ (on_message svcRaising "hermes/intent/Broken_Skill"
        (some ⟨some "S1", some "D1", "Broken_Skill", none⟩) 0).svc.registry
        = svcRaising.registry
    ∧ (on_message svcRaising "hermes/intent/Broken_Skill"
        (some ⟨some "S1", some "D1", "Broken_Skill", none⟩) 0).svc.uniques
        = svcRaising.uniques
    ∧ (on_message svcRaising "hermes/intent/Broken_Skill"
        (some ⟨some "S1", some "D1", "Broken_Skill", none⟩) 0).svc.skills
        = svcRaising.skills
    ∧ (on_message svcRaising "hermes/intent/Broken_Skill"
        (some ⟨some "S1", some "D1", "Broken_Skill", none⟩) 0).pubs = []
    ∧ (on_message svcRaising "hermes/intent/Broken_Skill"
        (some ⟨some "S1", some "D1", "Broken_Skill", none⟩) 0).logs
        = [⟨.info, "Received intent"⟩, ⟨.info, "Dispatching intent to skill."⟩,
           ⟨.error, "An unexpected error occurred in on_message"⟩] :=
  C8_router_catches svcRaising "hermes/intent/Broken_Skill"
    ⟨some "S1", some "D1", "Broken_Skill", none⟩ 0 0
    ⟨0, ⟨"Broken_Skill", ""⟩, .raising "ValueError", ⟨none, none, 0⟩⟩ "ValueError"
    (by decide) (by decide) (by decide) (by decide) (by decide)

/-! Accumulator lemmas for the `load_skills` fold, used by C9. -/

lemma load_foldl_mem (files : List PluginResult)
    (acc : List (String × LoadedSkill) × List LoadedSkill) (x : LoadedSkill)
    (h : x ∈ acc.2) : x ∈ (files.foldl loadStep acc).2 := by
  induction files generalizing acc with
  | nil => exact h
  | cons f rest ih =>
    cases f with
    | ok sk => exact ih (loadStep acc (.ok sk)) (List.mem_append_left _ h)
    | noClass => exact ih acc h
    | loadError => exact ih acc h

lemma load_foldl_lookup_untouched (files : List PluginResult)
    (acc : List (String × LoadedSkill) × List LoadedSkill) (key : String)
    (h : ∀ sk' ∈ oks files, sk'.intent_name ≠ key ∧ sk'.answer_intent ≠ key) :
    dictLookup (files.foldl loadStep acc).1 key = dictLookup acc.1 key := by
  induction files generalizing acc with
  | nil => rfl
  | cons f rest ih =>
    cases f with
    | ok sk =>
      have hsk := h sk (by simp [oks])
      have hrest : ∀ sk' ∈ oks rest, sk'.intent_name ≠ key ∧ sk'.answer_intent ≠ key :=
        fun sk' hm => h sk' (by simp [oks, hm])
      rw [List.foldl_cons, ih (loadStep acc (.ok sk)) hrest]
      simp [loadStep, dictLookup, registerSkill, dictInsert, List.find?, hsk.1, hsk.2]
    | noClass =>
      rw [List.foldl_cons]
      exact ih acc (fun sk' hm => h sk' (by simp [oks, hm]))
    | loadError =>
      rw [List.foldl_cons]
      exact ih acc (fun sk' hm => h sk' (by simp [oks, hm]))

lemma load_foldl_registers (sk : LoadedSkill) :
    ∀ (files : List PluginResult)
      (acc : List (String × LoadedSkill) × List LoadedSkill),
      sk ∈ oks files →
      (∀ sk' ∈ oks files,
        (sk'.intent_name = sk.intent_name ∨ sk'.answer_intent = sk.intent_name) →
        sk' = sk) →
      dictLookup (files.foldl loadStep acc).1 sk.intent_name = some sk
      ∧ sk ∈ (files.foldl loadStep acc).2 := by
  intro files
  induction files with
  | nil => intro acc hmem _; simp [oks] at hmem
  | cons f rest ih =>
    intro acc hmem hno
    cases f with
    | noClass =>
      exact ih acc (by simpa [oks] using hmem)
        (fun sk' hm hk => hno sk' (by simpa [oks] using hm) hk)
    | loadError =>
      exact ih acc (by simpa [oks] using hmem)
        (fun sk' hm hk => hno sk' (by simpa [oks] using hm) hk)
    | ok sk0 =>
      by_cases hr : sk ∈ oks rest
      · exact ih (loadStep acc (.ok sk0)) hr
          (fun sk' hm hk => hno sk' (by simp [oks]; exact Or.inr hm) hk)
      · have hsk0 : sk0 = sk := by
          have : sk = sk0 ∨ sk ∈ oks rest := by simpa [oks] using hmem
          rcases this with h | h
          · exact h.symm
          · exact absurd h hr
        subst hsk0
        have huntouched : ∀ sk' ∈ oks rest,
            sk'.intent_name ≠ sk0.intent_name ∧ sk'.answer_intent ≠ sk0.intent_name := by
          intro sk' hm
          constructor <;> intro hk
          · have heq := hno sk' (by simp [oks]; exact Or.inr hm) (Or.inl hk)
            exact hr (heq ▸ hm)
          · have heq := hno sk' (by simp [oks]; exact Or.inr hm) (Or.inr hk)
            exact hr (heq ▸ hm)
        rw [List.foldl_cons]
        constructor
        · rw [load_foldl_lookup_untouched rest (loadStep acc (.ok sk0))
            sk0.intent_name huntouched]
          exact registerSkill_lookup_intent acc.1 sk0
        · exact load_foldl_mem rest (loadStep acc (.ok sk0)) sk0
            (List.mem_append_right _ (List.mem_singleton_self sk0))

/-- C9: plugin-load failures are isolated. For any file list and any skill
whose file loads successfully (and whose intent keys are not claimed by a
different successfully loaded skill, the spec's no-collision invariant),
`load_skills` leaves that skill reachable in the registry under its trigger
intent and present in the unique-instance collection, no matter how many of
the other files fail to load. -/
theorem C9_load_isolation (files : List PluginResult) (sk : LoadedSkill)
    (hmem : sk ∈ oks files)
    (hno : ∀ sk' ∈ oks files,
      (sk'.intent_name = sk.intent_name ∨ sk'.answer_intent = sk.intent_name) →
      sk' = sk) :
    dictLookup (load_skills files).1 sk.intent_name = some sk
    ∧ sk ∈ (load_skills files).2 :=
  load_foldl_registers sk files ([], []) hmem hno

/-- Witness for C9: a directory where the first file raises on import, the
third lacks the expected class, and the second and fourth load fine; the
fourth skill is registered and unique despite both failures. -/
theorem C9_load_isolation_witness :
    dictLookup (load_skills
        [PluginResult.loadError, PluginResult.ok ⟨"Tell_Time", ""⟩,
         PluginResult.noClass, PluginResult.ok ⟨"Ask_Me_Colors", "Answer_Colors"⟩]).1
        "Ask_Me_Colors" = some ⟨"Ask_Me_Colors", "Answer_Colors"⟩
    ∧ (⟨"Ask_Me_Colors", "Answer_Colors"⟩ : LoadedSkill) ∈ (load_skills
        [PluginResult.loadError, PluginResult.ok ⟨"Tell_Time", ""⟩,
         PluginResult.noClass, PluginResult.ok ⟨"Ask_Me_Colors", "Answer_Colors"⟩]).2 :=
  C9_load_isolation
    [PluginResult.loadError, PluginResult.ok ⟨"Tell_Time", ""⟩,
     PluginResult.noClass, PluginResult.ok ⟨"Ask_Me_Colors", "Answer_Colors"⟩]
    ⟨"Ask_Me_Colors", "Answer_Colors"⟩ (by decide) (by decide)

end Calico
